import Mathlib

/-!
Verification of the lease-based leader-election core of the
polaris-store-postgresql repository (store/postgresql/config_file_template.go).

The store layer (`leaderElectionStore`) is embedded as pure functions over the
single `leader_election` row relevant to a key; timestamps are epoch seconds
(`Int`), Go `int64` values are `Int`, and the one place the source narrows to
`int32` is embedded with explicit two's-complement truncation (`toInt32`).
The per-key state machine (`leaderElectionStateMachine`) is embedded as a pure
transition function `tick` over its local fields; the results of the three
store round-trips a tick can make are passed in as a `StoreReply` oracle, and
the tick's outputs (new local state, published leader-change events, store
calls issued) are returned explicitly.
-/

namespace Polaris

/-- Go constant `TickTime` (config_file_template.go line 149): tick period in seconds. -/
def TickTime : Int := 2

/-- Go constant `LeaseTime` (config_file_template.go line 150): lease duration in seconds. -/
def LeaseTime : Int := 10

/-- Two's-complement truncation of an integer to Go `int32`, as performed by the
conversion `int32(diffTime)` in `CheckMtimeExpired` (line 279). -/
def toInt32 (x : Int) : Int :=
  let m := x % 4294967296
  if m < 2147483648 then m else m - 4294967296

/-- One row of the `leader_election` table: `elect_key`, `leader`, `version`,
`ctime`, `mtime` (timestamps as epoch seconds). -/
structure LeaderElectionRow where
  electKey : String
  leader : String
  version : Int
  ctime : Int
  mtime : Int
deriving Repr, DecidableEq

/-- The slice of the database visible to one election key: the row with that
`elect_key`, if present. -/
abbrev Db := Option LeaderElectionRow

/-- Store-level errors observable by the election code. -/
inductive StoreErr where
  /-- lib/pq `ErrInFailedTransaction`: `tx.Commit` on a transaction aborted by an
  earlier failed statement rolls back and returns this error. -/
  | inFailedTransaction
  /-- Row scan failed because no row matched the key. -/
  | notFound
deriving Repr, DecidableEq

/-- Embeds `leaderElectionStore.CreateLeaderElection` (lines 187-208).
The INSERT supplies only `elect_key` and `leader` (empty); `version` starts at 0
and the timestamps at now (modelled from the spec: the `leader_election` schema,
which is not under src/, defaults `version` to 0 and the timestamps to the
current time, and makes `elect_key` unique). On a pre-existing row the INSERT
violates the unique key; the Go code logs and swallows that error, but the
failed statement has aborted the PostgreSQL transaction, so the subsequent
`tx.Commit` rolls back and returns lib/pq ErrInFailedTransaction, which the
function returns; the row is left unchanged. -/
def createLeaderElection (key : String) (now : Int) (db : Db) : Db × Option StoreErr :=
  match db with
  | none => (some { electKey := key, leader := "", version := 0, ctime := now, mtime := now }, none)
  | some row => (some row, some .inFailedTransaction)

/-- Embeds `leaderElectionStore.GetVersion` (lines 211-223): on a missing row the
scan fails and the zero value 0 is returned together with the error. -/
def getVersion (key : String) (db : Db) : Int × Option StoreErr :=
  match db with
  | some row => if row.electKey = key then (row.version, none) else (0, some .notFound)
  | none => (0, some .notFound)

/-- Embeds `leaderElectionStore.CompareAndSwapVersion` (lines 226-259): one
transaction running `update leader_election set leader, version where elect_key
and version = curVersion`; applied is `RowsAffected > 0`; an update matching no
row is not an error, so a lost race yields `(false, none)`. The refresh of
`mtime` to now on an applied update is modelled from the spec: the
`leader_election` schema (not under src/) keeps `mtime` current on every row
update, and the spec states that a successful CAS always refreshes
`modified_at` to now. -/
def compareAndSwapVersion (key : String) (curVersion newVersion : Int) (leader : String)
    (now : Int) (db : Db) : Db × Bool × Option StoreErr :=
  match db with
  | none => (none, false, none)
  | some row =>
      if row.electKey = key ∧ row.version = curVersion then
        (some { row with leader := leader, version := newVersion, mtime := now }, true, none)
      else
        (some row, false, none)

/-- Embeds `leaderElectionStore.CheckMtimeExpired` (lines 262-280):
`CurrDiffTimeSecond` is modelled from the spec (it is not under src/) as the
difference now − mtime in seconds; the source then narrows it with `int32(...)`
before comparing against `leaseTime`. On a missing row the scan fails and the
zero values are returned together with the error. -/
def checkMtimeExpired (key : String) (leaseTime : Int) (now : Int) (db : Db) :
    String × Bool × Option StoreErr :=
  match db with
  | some row =>
      if row.electKey = key then
        (row.leader, decide (toInt32 (now - row.mtime) > leaseTime), none)
      else
        ("", decide (toInt32 (now - 0) > leaseTime), some .notFound)
  | none => ("", decide (toInt32 (now - 0) > leaseTime), some .notFound)

/-- Embeds `checkLeaderValid` (lines 331-334): `delta := now - mtime;
return delta <= LeaseTime`, with no `int32` narrowing. -/
def checkLeaderValid (now : Int) (mtime : Int) : Bool :=
  decide (now - mtime ≤ LeaseTime)

/-- One element of the `ListLeaderElections` result (`model.LeaderElection`):
key, leader host, timestamps, and the derived `Valid` flag. -/
structure LeaderElectionView where
  electKey : String
  host : String
  ctime : Int
  mtime : Int
  valid : Bool
deriving Repr, DecidableEq

/-- Embeds the per-row work of `fetchLeaderElectionRows` (lines 298-329): scan
the row and derive `Valid` via `checkLeaderValid` at read time. -/
def fetchLeaderElectionRow (now : Int) (row : LeaderElectionRow) : LeaderElectionView :=
  { electKey := row.electKey, host := row.leader, ctime := row.ctime, mtime := row.mtime,
    valid := checkLeaderValid now row.mtime }

/-- Embeds `ListLeaderElections` (lines 282-296) restricted to the rows of one
key: every returned row carries a `Valid` flag evaluated at read time. -/
def listLeaderElections (now : Int) (db : Db) : List LeaderElectionView :=
  db.toList.map (fetchLeaderElectionRow now)

/-- In-memory per-key election state machine (`leaderElectionStateMachine`,
lines 336-346): the atomic `int32` flags are embedded as `Int`. -/
structure LeaderElectionStateMachine where
  electKey : String
  leaderFlag : Int
  version : Int
  releaseSignal : Int
  releaseTickLimit : Int
  leader : String
deriving Repr, DecidableEq

/-- Embeds the free function `isLeader` (lines 349-351): `flag > 0`. -/
def isLeader (flag : Int) : Bool :=
  decide (flag > 0)

/-- A `store.LeaderChangeEvent` published to the event hub (lines 468-474). -/
structure LeaderChangeEvent where
  key : String
  leader : Bool
  leaderHost : String
deriving Repr, DecidableEq

/-- Embeds `publishLeaderChangeEvent` (lines 468-474): the event carries the
machine's current flag (as a boolean) and its current known leader. -/
def publishLeaderChangeEvent (le : LeaderElectionStateMachine) : LeaderChangeEvent :=
  { key := le.electKey, leader := isLeader le.leaderFlag, leaderHost := le.leader }

/-- Embeds `changeToLeader` (lines 452-457): set the flag to 1, set the known
leader to the local host, publish one event. -/
def changeToLeader (localHost : String) (le : LeaderElectionStateMachine) :
    LeaderElectionStateMachine × LeaderChangeEvent :=
  let le' := { le with leaderFlag := 1, leader := localHost }
  (le', publishLeaderChangeEvent le')

/-- Embeds `changeToFollower` (lines 460-465): set the flag to 0, set the known
leader to the given leader, publish one event. -/
def changeToFollower (leader : String) (le : LeaderElectionStateMachine) :
    LeaderElectionStateMachine × LeaderChangeEvent :=
  let le' := { le with leaderFlag := 0, leader := leader }
  (le', publishLeaderChangeEvent le')

/-- Embeds `checkAndClearReleaseSignal` (lines 433-435): atomic compare-and-swap
of the signal from 1 to 0, reporting whether it was 1. -/
def checkAndClearReleaseSignal (le : LeaderElectionStateMachine) :
    Bool × LeaderElectionStateMachine :=
  if le.releaseSignal = 1 then (true, { le with releaseSignal := 0 }) else (false, le)

/-- Embeds `checkReleaseTickLimit` (lines 438-444): when the cooldown counter is
positive, decrement it and report true. -/
def checkReleaseTickLimit (le : LeaderElectionStateMachine) :
    Bool × LeaderElectionStateMachine :=
  if le.releaseTickLimit > 0 then
    (true, { le with releaseTickLimit := le.releaseTickLimit - 1 })
  else
    (false, le)

/-- Embeds `setReleaseTickLimit` (lines 447-449): `LeaseTime / TickTime * 3`. -/
def setReleaseTickLimit (le : LeaderElectionStateMachine) : LeaderElectionStateMachine :=
  { le with releaseTickLimit := LeaseTime / TickTime * 3 }

/-- Embeds `setReleaseSignal` (lines 509-511): atomically store 1. -/
def setReleaseSignal (le : LeaderElectionStateMachine) : LeaderElectionStateMachine :=
  { le with releaseSignal := 1 }

/-- Oracle giving the results of the store round-trips one tick can make:
the heartbeat CAS, the `CheckMtimeExpired` call, and the `GetVersion` plus CAS
of an election attempt. Error returns are abstracted to a flag. -/
structure StoreReply where
  hbApplied : Bool
  hbErr : Bool
  cldLeader : String
  cldDead : Bool
  cldErr : Bool
  gvVersion : Int
  gvErr : Bool
  elApplied : Bool
  elErr : Bool
deriving Repr, DecidableEq

/-- A store call issued by the state machine during a tick. -/
inductive StoreCall where
  | compareAndSwap (key : String) (curVersion newVersion : Int) (leader : String)
  | checkExpired (key : String) (leaseTime : Int)
  | getVersion (key : String)
deriving Repr, DecidableEq

/-- Outcome of one CAS-issuing helper (`heartbeat` / `elect`): the mutated local
state, the applied flag, whether the store call errored, and the calls made. -/
structure CasAttempt where
  st : LeaderElectionStateMachine
  success : Bool
  errFlag : Bool
  calls : List StoreCall
deriving Repr, DecidableEq

/-- Embeds `heartbeat` (lines 492-496): the local `version` is set to
`version + 1` before the CAS is issued, whatever the CAS then returns. -/
def heartbeat (localHost : String) (r : StoreReply) (le : LeaderElectionStateMachine) :
    CasAttempt :=
  { st := { le with version := le.version + 1 },
    success := r.hbApplied, errFlag := r.hbErr,
    calls := [StoreCall.compareAndSwap le.electKey le.version (le.version + 1) localHost] }

/-- Embeds `elect` (lines 482-489): read the stored version; on a read error
return at once leaving the local state untouched; otherwise set the local
`version` to the read version + 1 before the CAS is issued, whatever the CAS
then returns. -/
def elect (localHost : String) (r : StoreReply) (le : LeaderElectionStateMachine) :
    CasAttempt :=
  if r.gvErr then
    { st := le, success := false, errFlag := true, calls := [StoreCall.getVersion le.electKey] }
  else
    { st := { le with version := r.gvVersion + 1 },
      success := r.elApplied, errFlag := r.elErr,
      calls := [StoreCall.getVersion le.electKey,
        StoreCall.compareAndSwap le.electKey r.gvVersion (r.gvVersion + 1) localHost] }

/-- Result of one tick: the new local state, the leader-change events published
during the tick (in order), and the store calls issued (in order). -/
structure TickResult where
  st : LeaderElectionStateMachine
  events : List LeaderChangeEvent
  calls : List StoreCall
deriving Repr, DecidableEq

/-- Embeds the tail of `tick` from the `checkLeaderDead` call on (lines
405-429): on a check error return unchanged; if the lease is live, re-adopt
leadership when the stored leader is the local host (note `changeToLeader`
republishes even when flag and leader are already set), else record a changed
leader; if the lease is dead, attempt an election and become leader when the
CAS applies. -/
def tickFromDeadCheck (localHost : String) (r : StoreReply)
    (le : LeaderElectionStateMachine) (hbCalls : List StoreCall) : TickResult :=
  let cldCall := StoreCall.checkExpired le.electKey LeaseTime
  if r.cldErr then
    { st := le, events := [], calls := hbCalls ++ [cldCall] }
  else if r.cldDead then
    let att := elect localHost r le
    if att.errFlag then
      { st := att.st, events := [], calls := hbCalls ++ cldCall :: att.calls }
    else if att.success then
      let p := changeToLeader localHost att.st
      { st := p.1, events := [p.2], calls := hbCalls ++ cldCall :: att.calls }
    else
      { st := att.st, events := [], calls := hbCalls ++ cldCall :: att.calls }
  else
    if r.cldLeader = localHost then
      let p := changeToLeader localHost le
      { st := p.1, events := [p.2], calls := hbCalls ++ [cldCall] }
    else if le.leader ≠ r.cldLeader then
      let p := changeToFollower r.cldLeader le
      { st := p.1, events := [p.2], calls := hbCalls ++ [cldCall] }
    else
      { st := le, events := [], calls := hbCalls ++ [cldCall] }

/-- Embeds `tick` (lines 376-430): cooldown check, release-signal consumption,
leader branch (voluntary release or heartbeat), then the shared dead-check and
election tail. -/
def tick (localHost : String) (r : StoreReply) (le : LeaderElectionStateMachine) :
    TickResult :=
  let lim := checkReleaseTickLimit le
  if lim.1 then
    { st := lim.2, events := [], calls := [] }
  else
    let sig := checkAndClearReleaseSignal lim.2
    if isLeader sig.2.leaderFlag then
      if sig.1 then
        let p := changeToFollower "" sig.2
        { st := setReleaseTickLimit p.1, events := [p.2], calls := [] }
      else
        let att := heartbeat localHost r sig.2
        if att.errFlag = false ∧ att.success = true then
          { st := att.st, events := [], calls := att.calls }
        else
          tickFromDeadCheck localHost r att.st att.calls
    else
      tickFromDeadCheck localHost r sig.2 []

/-- Run a sequence of ticks, one `StoreReply` per tick, collecting all events. -/
def runTicks (localHost : String) (rs : List StoreReply)
    (le : LeaderElectionStateMachine) : LeaderElectionStateMachine × List LeaderChangeEvent :=
  match rs with
  | [] => (le, [])
  | r :: rest =>
      let t := tick localHost r le
      let tail := runTicks localHost rest t.st
      (tail.1, t.events ++ tail.2)

/-- The manager's registry (`adminStore.leMap`): election key to state machine. -/
abbrev LeMap := List (String × LeaderElectionStateMachine)

/-- Lookup of a key in the registry. -/
def lookupLe : LeMap → String → Option LeaderElectionStateMachine
  | [], _ => none
  | (k, le) :: rest, key => if k = key then some le else lookupLe rest key

/-- Embeds `adminStore.IsLeader` (lines 558-568): a purely local query of the
registry and the atomic flag; its type takes no `Db`, so it cannot consult the
store; an untracked key yields false. -/
def adminIsLeader (m : LeMap) (key : String) : Bool :=
  match lookupLe m key with
  | none => false
  | some le => isLeader le.leaderFlag

/-- Set the release signal on the machine registered under the key. -/
def setSignalInMap : LeMap → String → LeMap
  | [], _ => []
  | (k, le) :: rest, key =>
      if k = key then (k, setReleaseSignal le) :: rest
      else (k, le) :: setSignalInMap rest key

/-- Embeds `adminStore.ReleaseLeaderElection` (lines 576-588): an untracked key
yields the distinct not-started error; a tracked key has its release signal set
and nil is returned. -/
def adminReleaseLeaderElection (m : LeMap) (key : String) : Except String LeMap :=
  match lookupLe m key with
  | none => Except.error ("LeaderElection(" ++ key ++ ") not started")
  | some _ => Except.ok (setSignalInMap m key)

/-! ## Case lemmas on `tick` and `tickFromDeadCheck`, shared by several claims -/

/-- Consuming the release signal changes no field but the signal. -/
theorem checkAndClearReleaseSignal_preserves (le : LeaderElectionStateMachine) :
    (checkAndClearReleaseSignal le).2.leaderFlag = le.leaderFlag ∧
    (checkAndClearReleaseSignal le).2.leader = le.leader ∧
    (checkAndClearReleaseSignal le).2.version = le.version ∧
    (checkAndClearReleaseSignal le).2.releaseTickLimit = le.releaseTickLimit ∧
    (checkAndClearReleaseSignal le).2.electKey = le.electKey := by
  simp only [checkAndClearReleaseSignal]
  split <;> simp

/-- During cooldown a tick only decrements the counter: no store call, no event,
no other state change. -/
theorem tick_cooldown (h : String) (r : StoreReply) (le : LeaderElectionStateMachine)
    (hLim : le.releaseTickLimit > 0) :
    tick h r le =
      { st := { le with releaseTickLimit := le.releaseTickLimit - 1 },
        events := [], calls := [] } := by
  simp [tick, checkReleaseTickLimit, hLim]

/-- A leader tick that consumes the release signal steps down, arms the
cooldown, publishes the follower event, and issues no store call. -/
theorem tick_leader_release (h : String) (r : StoreReply) (le : LeaderElectionStateMachine)
    (hLim : ¬ le.releaseTickLimit > 0) (hL : isLeader le.leaderFlag = true)
    (hSig : le.releaseSignal = 1) :
    tick h r le =
      { st := { le with releaseSignal := 0, leaderFlag := 0, leader := "",
                        releaseTickLimit := LeaseTime / TickTime * 3 },
        events := [{ key := le.electKey, leader := false, leaderHost := "" }],
        calls := [] } := by
  have h0 : isLeader 0 = false := by decide
  simp [tick, checkReleaseTickLimit, checkAndClearReleaseSignal, hLim, hL, hSig,
    changeToFollower, publishLeaderChangeEvent, setReleaseTickLimit, h0]

/-- A leader tick with an applied, error-free heartbeat only advances the local
version and issues the heartbeat CAS; no event is published. -/
theorem tick_leader_hb_ok (h : String) (r : StoreReply) (le : LeaderElectionStateMachine)
    (hLim : ¬ le.releaseTickLimit > 0) (hL : isLeader le.leaderFlag = true)
    (hSig : ¬ le.releaseSignal = 1) (hE : r.hbErr = false) (hA : r.hbApplied = true) :
    tick h r le =
      { st := { le with version := le.version + 1 },
        events := [],
        calls := [StoreCall.compareAndSwap le.electKey le.version (le.version + 1) h] } := by
  simp [tick, checkReleaseTickLimit, checkAndClearReleaseSignal, heartbeat, hLim, hL, hSig,
    hE, hA]

/-- A leader tick whose heartbeat does not succeed (not applied, or the store
call errored) falls through to the dead check, the version already advanced. -/
theorem tick_leader_hb_fail (h : String) (r : StoreReply) (le : LeaderElectionStateMachine)
    (hLim : ¬ le.releaseTickLimit > 0) (hL : isLeader le.leaderFlag = true)
    (hSig : ¬ le.releaseSignal = 1) (hFail : ¬ (r.hbErr = false ∧ r.hbApplied = true)) :
    tick h r le =
      tickFromDeadCheck h r { le with version := le.version + 1 }
        [StoreCall.compareAndSwap le.electKey le.version (le.version + 1) h] := by
  simp only [tick, checkReleaseTickLimit, checkAndClearReleaseSignal, heartbeat,
    if_neg hLim, if_neg hSig, hL]
  simp [hFail]

/-- A follower tick goes straight to the dead check after consuming the signal. -/
theorem tick_follower (h : String) (r : StoreReply) (le : LeaderElectionStateMachine)
    (hLim : ¬ le.releaseTickLimit > 0) (hF : isLeader le.leaderFlag = false) :
    tick h r le = tickFromDeadCheck h r (checkAndClearReleaseSignal le).2 [] := by
  have hflag := (checkAndClearReleaseSignal_preserves le).1
  simp only [tick, checkReleaseTickLimit, if_neg hLim, hflag, hF]
  simp

/-- Dead check errored: the tick returns with the local state unchanged and no
event. -/
theorem tfdc_err (h : String) (r : StoreReply) (le : LeaderElectionStateMachine)
    (calls : List StoreCall) (hErr : r.cldErr = true) :
    tickFromDeadCheck h r le calls =
      { st := le, events := [],
        calls := calls ++ [StoreCall.checkExpired le.electKey LeaseTime] } := by
  simp [tickFromDeadCheck, hErr]

/-- Lease alive and the stored leader is the local host: `changeToLeader` runs
(and republishes) even when the flag and known leader are already set. -/
theorem tfdc_alive_self (h : String) (r : StoreReply) (le : LeaderElectionStateMachine)
    (calls : List StoreCall) (hErr : r.cldErr = false) (hDead : r.cldDead = false)
    (hSelf : r.cldLeader = h) :
    tickFromDeadCheck h r le calls =
      { st := { le with leaderFlag := 1, leader := h },
        events := [{ key := le.electKey, leader := true, leaderHost := h }],
        calls := calls ++ [StoreCall.checkExpired le.electKey LeaseTime] } := by
  have h1 : isLeader 1 = true := by decide
  simp [tickFromDeadCheck, hErr, hDead, hSelf, changeToLeader, publishLeaderChangeEvent, h1]

/-- Lease alive, another host leads and it differs from the known leader: record
it and publish the follower-update event. -/
theorem tfdc_alive_changed (h : String) (r : StoreReply) (le : LeaderElectionStateMachine)
    (calls : List StoreCall) (hErr : r.cldErr = false) (hDead : r.cldDead = false)
    (hOther : ¬ r.cldLeader = h) (hNe : ¬ le.leader = r.cldLeader) :
    tickFromDeadCheck h r le calls =
      { st := { le with leaderFlag := 0, leader := r.cldLeader },
        events := [{ key := le.electKey, leader := false, leaderHost := r.cldLeader }],
        calls := calls ++ [StoreCall.checkExpired le.electKey LeaseTime] } := by
  have h0 : isLeader 0 = false := by decide
  simp [tickFromDeadCheck, hErr, hDead, hOther, hNe, changeToFollower,
    publishLeaderChangeEvent, h0]

/-- Lease alive, another host leads and it is already the known leader: nothing
changes and no event is published. -/
theorem tfdc_alive_same (h : String) (r : StoreReply) (le : LeaderElectionStateMachine)
    (calls : List StoreCall) (hErr : r.cldErr = false) (hDead : r.cldDead = false)
    (hOther : ¬ r.cldLeader = h) (hEq : le.leader = r.cldLeader) :
    tickFromDeadCheck h r le calls =
      { st := le, events := [],
        calls := calls ++ [StoreCall.checkExpired le.electKey LeaseTime] } := by
  simp [tickFromDeadCheck, hErr, hDead, hOther, hEq]

/-- Lease dead but the version read failed: state unchanged, no event. -/
theorem tfdc_dead_gverr (h : String) (r : StoreReply) (le : LeaderElectionStateMachine)
    (calls : List StoreCall) (hErr : r.cldErr = false) (hDead : r.cldDead = true)
    (hGv : r.gvErr = true) :
    tickFromDeadCheck h r le calls =
      { st := le, events := [],
        calls := calls ++ [StoreCall.checkExpired le.electKey LeaseTime,
          StoreCall.getVersion le.electKey] } := by
  simp [tickFromDeadCheck, elect, hErr, hDead, hGv]

/-- Lease dead, version read succeeded but the election CAS errored: the local
version is already overwritten; no event. -/
theorem tfdc_dead_elerr (h : String) (r : StoreReply) (le : LeaderElectionStateMachine)
    (calls : List StoreCall) (hErr : r.cldErr = false) (hDead : r.cldDead = true)
    (hGv : r.gvErr = false) (hEl : r.elErr = true) :
    tickFromDeadCheck h r le calls =
      { st := { le with version := r.gvVersion + 1 }, events := [],
        calls := calls ++ [StoreCall.checkExpired le.electKey LeaseTime,
          StoreCall.getVersion le.electKey,
          StoreCall.compareAndSwap le.electKey r.gvVersion (r.gvVersion + 1) h] } := by
  simp [tickFromDeadCheck, elect, hErr, hDead, hGv, hEl]

/-- Lease dead and the election CAS applied: become leader and publish the
acquisition event. -/
theorem tfdc_dead_won (h : String) (r : StoreReply) (le : LeaderElectionStateMachine)
    (calls : List StoreCall) (hErr : r.cldErr = false) (hDead : r.cldDead = true)
    (hGv : r.gvErr = false) (hEl : r.elErr = false) (hApp : r.elApplied = true) :
    tickFromDeadCheck h r le calls =
      { st := { le with version := r.gvVersion + 1, leaderFlag := 1, leader := h },
        events := [{ key := le.electKey, leader := true, leaderHost := h }],
        calls := calls ++ [StoreCall.checkExpired le.electKey LeaseTime,
          StoreCall.getVersion le.electKey,
          StoreCall.compareAndSwap le.electKey r.gvVersion (r.gvVersion + 1) h] } := by
  have h1 : isLeader 1 = true := by decide
  simp [tickFromDeadCheck, elect, hErr, hDead, hGv, hEl, hApp, changeToLeader,
    publishLeaderChangeEvent, h1]

/-- Lease dead but the election CAS lost the race: stay follower, the local
version already overwritten; no event. -/
theorem tfdc_dead_lost (h : String) (r : StoreReply) (le : LeaderElectionStateMachine)
    (calls : List StoreCall) (hErr : r.cldErr = false) (hDead : r.cldDead = true)
    (hGv : r.gvErr = false) (hEl : r.elErr = false) (hApp : r.elApplied = false) :
    tickFromDeadCheck h r le calls =
      { st := { le with version := r.gvVersion + 1 }, events := [],
        calls := calls ++ [StoreCall.checkExpired le.electKey LeaseTime,
          StoreCall.getVersion le.electKey,
          StoreCall.compareAndSwap le.electKey r.gvVersion (r.gvVersion + 1) h] } := by
  simp [tickFromDeadCheck, elect, hErr, hDead, hGv, hEl, hApp]

/-- `tickFromDeadCheck` never touches the release signal, the cooldown counter
or the election key. -/
theorem tfdc_preserves (h : String) (r : StoreReply) (le : LeaderElectionStateMachine)
    (calls : List StoreCall) :
    (tickFromDeadCheck h r le calls).st.releaseSignal = le.releaseSignal ∧
    (tickFromDeadCheck h r le calls).st.releaseTickLimit = le.releaseTickLimit ∧
    (tickFromDeadCheck h r le calls).st.electKey = le.electKey := by
  simp only [tickFromDeadCheck, elect, changeToLeader, changeToFollower,
    publishLeaderChangeEvent]
  split_ifs <;> simp

/-! ## Sample states and store replies used in concrete witnesses -/

/-- A sample machine in the Leader state. -/
def sampleLeader : LeaderElectionStateMachine :=
  { electKey := "k", leaderFlag := 1, version := 5, releaseSignal := 0,
    releaseTickLimit := 0, leader := "A" }

/-- A sample machine in the Follower state, as built by `StartLeaderElection`. -/
def sampleFollower : LeaderElectionStateMachine :=
  { electKey := "k", leaderFlag := 0, version := 0, releaseSignal := 0,
    releaseTickLimit := 0, leader := "" }

/-- A store reply where every call succeeds and both CAS attempts apply. -/
def replyAllOk : StoreReply :=
  { hbApplied := true, hbErr := false, cldLeader := "A", cldDead := false,
    cldErr := false, gvVersion := 7, gvErr := false, elApplied := true, elErr := false }

/-- A store reply for a non-applied, error-free heartbeat followed by an
errored lease check. -/
def replyHbLostCldErr : StoreReply :=
  { hbApplied := false, hbErr := false, cldLeader := "", cldDead := false,
    cldErr := true, gvVersion := 0, gvErr := false, elApplied := false, elErr := false }

/-- A store reply for a non-applied heartbeat after which the lease check still
reports host "A" as the live leader. -/
def replyHbLostStillSelf : StoreReply :=
  { hbApplied := false, hbErr := false, cldLeader := "A", cldDead := false,
    cldErr := false, gvVersion := 0, gvErr := false, elApplied := false, elErr := false }

/-- A store reply reporting the lease dead and an applied election CAS. -/
def replyElectionWon : StoreReply :=
  { hbApplied := false, hbErr := false, cldLeader := "", cldDead := true,
    cldErr := false, gvVersion := 0, gvErr := false, elApplied := true, elErr := false }

/-! ## C3 -/

/-- C3 counterexample: a leader tick whose heartbeat CAS returns applied = false
with a nil error (and whose lease check then errors) still advances the local
version by one, so the local version is not advanced only on applied CAS. -/
theorem c3_counterexample :
    replyHbLostCldErr.hbApplied = false ∧ replyHbLostCldErr.hbErr = false ∧
    isLeader sampleLeader.leaderFlag = true ∧
    (tick "A" replyHbLostCldErr sampleLeader).st.version ≠ sampleLeader.version := by
  decide

/-- C3 (amended): the local version is advanced by the CAS attempt itself, not
only on success: `heartbeat` always sets the local version to version + 1
before issuing the CAS, whatever the CAS then returns; `elect` sets it to the
read stored version + 1 whenever the GetVersion read succeeds, whatever the CAS
then returns; only a failed GetVersion read leaves the local version
unchanged. -/
theorem c3_version_advanced_before_cas (h : String) (r : StoreReply)
    (le : LeaderElectionStateMachine) :
    ((heartbeat h r le).st.version = le.version + 1) ∧
    (r.gvErr = false → (elect h r le).st.version = r.gvVersion + 1) ∧
    (r.gvErr = true → (elect h r le).st.version = le.version) := by
  refine ⟨by simp [heartbeat], ?_, ?_⟩ <;> intro hgv <;> simp [elect, hgv]

/-- Witness for C3 (amended): concrete heartbeat and election attempts whose
CAS does not apply still overwrite the local version. -/
theorem c3_version_advanced_before_cas_witness :
    (heartbeat "A" replyHbLostStillSelf sampleLeader).st.version = sampleLeader.version + 1 ∧
    (elect "A" replyHbLostStillSelf sampleLeader).st.version =
      replyHbLostStillSelf.gvVersion + 1 :=
  ⟨(c3_version_advanced_before_cas "A" replyHbLostStillSelf sampleLeader).1,
   (c3_version_advanced_before_cas "A" replyHbLostStillSelf sampleLeader).2.1 rfl⟩

/-! ## C5 -/

/-- C5: an honored voluntary release arms the cooldown counter to
`LeaseTime / TickTime * 3 = 15` and issues no store call that tick; and every
tick entered with a positive cooldown counter only decrements the counter:
no store call, no event, no other state change. -/
theorem c5_release_cooldown (h : String) (r : StoreReply) (le : LeaderElectionStateMachine) :
    LeaseTime / TickTime * 3 = 15 ∧
    (isLeader le.leaderFlag = true → ¬ le.releaseTickLimit > 0 → le.releaseSignal = 1 →
      (tick h r le).st.releaseTickLimit = 15 ∧ (tick h r le).calls = []) ∧
    (le.releaseTickLimit > 0 →
      tick h r le =
        { st := { le with releaseTickLimit := le.releaseTickLimit - 1 },
          events := [], calls := [] }) := by
  refine ⟨by decide, ?_, ?_⟩
  · intro hL hLim hSig
    rw [tick_leader_release h r le hLim hL hSig]
    refine ⟨?_, rfl⟩
    show LeaseTime / TickTime * 3 = 15
    decide
  · intro hLim
    exact tick_cooldown h r le hLim

/-- Witness for C5: a concrete released leader ends with counter 15 and no
store call; a concrete cooldown tick only decrements the counter. -/
theorem c5_release_cooldown_witness :
    ((tick "A" replyAllOk { sampleLeader with releaseSignal := 1 }).st.releaseTickLimit = 15 ∧
      (tick "A" replyAllOk { sampleLeader with releaseSignal := 1 }).calls = []) ∧
    tick "A" replyAllOk { sampleLeader with releaseTickLimit := 15 } =
      { st := { sampleLeader with releaseTickLimit := 14 }, events := [], calls := [] } :=
  ⟨(c5_release_cooldown "A" replyAllOk { sampleLeader with releaseSignal := 1 }).2.1
      (by decide) (by decide) rfl,
   by simpa using
     (c5_release_cooldown "A" replyAllOk { sampleLeader with releaseTickLimit := 15 }).2.2
       (by decide)⟩

/-! ## C7 -/

/-- C7 counterexample: when the lease check errors during a leader tick whose
heartbeat did not apply, the tick ends with the local version changed, so the
entire local state is not left unchanged. -/
theorem c7_counterexample :
    replyHbLostCldErr.cldErr = true ∧
    (tick "A" replyHbLostCldErr sampleLeader).st.version ≠ sampleLeader.version := by
  decide

/-- C7 (amended): when the lease check errors, the tick returns at once:
`leaderFlag`, the known leader and the cooldown counter are unchanged and no
event is published; for a follower the version is also unchanged, while for a
leader the version was already advanced by the non-successful heartbeat attempt
earlier in the same tick. The tick function returns normally, so store errors
never terminate the loop. -/
theorem c7_dead_check_error_keeps_belief (h : String) (r : StoreReply)
    (le : LeaderElectionStateMachine)
    (hLim : ¬ le.releaseTickLimit > 0) (hErr : r.cldErr = true)
    (hNoEarly : isLeader le.leaderFlag = true →
      ¬ le.releaseSignal = 1 ∧ ¬ (r.hbErr = false ∧ r.hbApplied = true)) :
    (tick h r le).st.leaderFlag = le.leaderFlag ∧
    (tick h r le).st.leader = le.leader ∧
    (tick h r le).st.releaseTickLimit = le.releaseTickLimit ∧
    (tick h r le).events = [] ∧
    (isLeader le.leaderFlag = false → (tick h r le).st.version = le.version) ∧
    (isLeader le.leaderFlag = true → (tick h r le).st.version = le.version + 1) := by
  by_cases hL : isLeader le.leaderFlag = true
  · obtain ⟨hSig, hFail⟩ := hNoEarly hL
    rw [tick_leader_hb_fail h r le hLim hL hSig hFail, tfdc_err h r _ _ hErr]
    simp [hL]
  · have hF : isLeader le.leaderFlag = false := by simpa using hL
    rw [tick_follower h r le hLim hF, tfdc_err h r _ _ hErr]
    have hp := checkAndClearReleaseSignal_preserves le
    simp [hF, hp.1, hp.2.1, hp.2.2.1, hp.2.2.2.1]

/-- Witness for C7 (amended): a concrete leader and a concrete follower keep
their belief when the lease check errors. -/
theorem c7_dead_check_error_keeps_belief_witness :
    ((tick "A" replyHbLostCldErr sampleLeader).st.leaderFlag = sampleLeader.leaderFlag ∧
      (tick "A" replyHbLostCldErr sampleLeader).events = []) ∧
    ((tick "A" replyHbLostCldErr sampleFollower).st.leader = sampleFollower.leader ∧
      (tick "A" replyHbLostCldErr sampleFollower).st.version = sampleFollower.version) :=
  ⟨⟨(c7_dead_check_error_keeps_belief "A" replyHbLostCldErr sampleLeader
        (by decide) (by decide) (fun _ => ⟨by decide, by decide⟩)).1,
    (c7_dead_check_error_keeps_belief "A" replyHbLostCldErr sampleLeader
        (by decide) (by decide) (fun _ => ⟨by decide, by decide⟩)).2.2.2.1⟩,
   ⟨(c7_dead_check_error_keeps_belief "A" replyHbLostCldErr sampleFollower
        (by decide) (by decide) (fun hc => absurd hc (by decide))).2.1,
    (c7_dead_check_error_keeps_belief "A" replyHbLostCldErr sampleFollower
        (by decide) (by decide) (fun hc => absurd hc (by decide))).2.2.2.2.1
      (by decide)⟩⟩

/-! ## C10 -/

/-- C10 counterexample: for a follower in cooldown the release signal is NOT
cleared by the tick: it survives to a later tick. -/
theorem c10_counterexample :
    isLeader ({ sampleFollower with releaseSignal := 1, releaseTickLimit := 1 } :
        LeaderElectionStateMachine).leaderFlag = false ∧
    (tick "A" replyAllOk
        { sampleFollower with releaseSignal := 1, releaseTickLimit := 1 }).st.releaseSignal
      ≠ 0 := by
  decide

/-- C10 (amended): for a follower, a tick with the release signal set produces
the same state transition, store calls and events as the same tick with the
signal clear, except possibly the signal field itself: when the tick passes the
cooldown check the signal is cleared and the two ticks agree exactly, while
during a cooldown tick the signal is left set; in either case no cooldown is
armed by the signal. -/
theorem c10_follower_release_discarded (h : String) (r : StoreReply)
    (le : LeaderElectionStateMachine) (hF : isLeader le.leaderFlag = false) :
    (tick h r { le with releaseSignal := 1 }).events =
      (tick h r { le with releaseSignal := 0 }).events ∧
    (tick h r { le with releaseSignal := 1 }).calls =
      (tick h r { le with releaseSignal := 0 }).calls ∧
    (¬ le.releaseTickLimit > 0 →
      tick h r { le with releaseSignal := 1 } = tick h r { le with releaseSignal := 0 } ∧
      (tick h r { le with releaseSignal := 1 }).st.releaseSignal = 0 ∧
      (tick h r { le with releaseSignal := 1 }).st.releaseTickLimit = le.releaseTickLimit) ∧
    (le.releaseTickLimit > 0 →
      (tick h r { le with releaseSignal := 1 }).st =
        { (tick h r { le with releaseSignal := 0 }).st with releaseSignal := 1 }) := by
  by_cases hLim : le.releaseTickLimit > 0
  · rw [tick_cooldown h r { le with releaseSignal := 1 } (by simpa using hLim),
      tick_cooldown h r { le with releaseSignal := 0 } (by simpa using hLim)]
    exact ⟨rfl, rfl, fun hc => absurd hLim hc, fun _ => rfl⟩
  · have heq : tick h r { le with releaseSignal := 1 } =
        tick h r { le with releaseSignal := 0 } := by
      rw [tick_follower h r { le with releaseSignal := 1 } (by simpa using hLim)
          (by simpa using hF),
        tick_follower h r { le with releaseSignal := 0 } (by simpa using hLim)
          (by simpa using hF)]
      simp [checkAndClearReleaseSignal]
    have hsig0 : (checkAndClearReleaseSignal { le with releaseSignal := 0 }).2 =
        { le with releaseSignal := 0 } := by
      simp [checkAndClearReleaseSignal]
    refine ⟨by rw [heq], by rw [heq], fun _ => ⟨heq, ?_, ?_⟩, fun hc => absurd hc hLim⟩
    · rw [heq, tick_follower h r { le with releaseSignal := 0 } (by simpa using hLim)
        (by simpa using hF), hsig0]
      exact (tfdc_preserves h r { le with releaseSignal := 0 } []).1
    · rw [heq, tick_follower h r { le with releaseSignal := 0 } (by simpa using hLim)
        (by simpa using hF), hsig0]
      exact (tfdc_preserves h r { le with releaseSignal := 0 } []).2.1

/-- Witness for C10 (amended): concrete follower ticks with and without the
signal set agree, and the signal ends cleared outside cooldown. -/
theorem c10_follower_release_discarded_witness :
    (tick "A" replyAllOk { sampleFollower with releaseSignal := 1 }).events =
      (tick "A" replyAllOk { sampleFollower with releaseSignal := 0 }).events ∧
    tick "A" replyAllOk { sampleFollower with releaseSignal := 1 } =
      tick "A" replyAllOk { sampleFollower with releaseSignal := 0 } ∧
    (tick "A" replyAllOk { sampleFollower with releaseSignal := 1 }).st.releaseSignal = 0 :=
  ⟨(c10_follower_release_discarded "A" replyAllOk sampleFollower (by decide)).1,
   ((c10_follower_release_discarded "A" replyAllOk sampleFollower (by decide)).2.2.1
      (by decide)).1,
   ((c10_follower_release_discarded "A" replyAllOk sampleFollower (by decide)).2.2.1
      (by decide)).2.1⟩

/-! ## C4 -/

/-- A follower tick that finds the lease dead and wins the election publishes
exactly the acquisition event. -/
theorem follower_wins_election_tick (h : String) (r : StoreReply)
    (le : LeaderElectionStateMachine) (hLim : ¬ le.releaseTickLimit > 0)
    (hF : isLeader le.leaderFlag = false) (hSig : ¬ le.releaseSignal = 1)
    (hErr : r.cldErr = false) (hDead : r.cldDead = true) (hGv : r.gvErr = false)
    (hEl : r.elErr = false) (hApp : r.elApplied = true) :
    tick h r le =
      { st := { le with version := r.gvVersion + 1, leaderFlag := 1, leader := h },
        events := [{ key := le.electKey, leader := true, leaderHost := h }],
        calls := [StoreCall.checkExpired le.electKey LeaseTime,
          StoreCall.getVersion le.electKey,
          StoreCall.compareAndSwap le.electKey r.gvVersion (r.gvVersion + 1) h] } := by
  rw [tick_follower h r le hLim hF]
  have hsig2 : (checkAndClearReleaseSignal le).2 = le := by
    simp [checkAndClearReleaseSignal, hSig]
  rw [hsig2, tfdc_dead_won h r le [] hErr hDead hGv hEl hApp]
  simp

/-- A leader whose heartbeats keep applying without error emits no event over
any run of ticks. -/
theorem leader_steady_run_no_events (h : String) (rs : List StoreReply) :
    ∀ le : LeaderElectionStateMachine, isLeader le.leaderFlag = true →
      ¬ le.releaseSignal = 1 → ¬ le.releaseTickLimit > 0 →
      (∀ r' ∈ rs, r'.hbErr = false ∧ r'.hbApplied = true) →
      (runTicks h rs le).2 = [] := by
  induction rs with
  | nil =>
    intro le _ _ _ _
    simp [runTicks]
  | cons r' rest ih =>
    intro le hL hSig hLim hHb
    obtain ⟨hE, hA⟩ := hHb r' (by simp)
    have ht := tick_leader_hb_ok h r' le hLim hL hSig hE hA
    have htail := ih { le with version := le.version + 1 } hL hSig hLim
      (fun r hr => hHb r (by simp [hr]))
    simp only [runTicks, ht]
    simpa using htail

/-- C4 counterexample: a leader tick whose heartbeat CAS did not apply and
whose lease check then reports the instance itself as the live stored leader
republishes a leader-change event although neither `leaderFlag` nor the known
leader changed. -/
theorem c4_counterexample :
    (tick "A" replyHbLostStillSelf sampleLeader).st.leaderFlag = sampleLeader.leaderFlag ∧
    (tick "A" replyHbLostStillSelf sampleLeader).st.leader = sampleLeader.leader ∧
    (tick "A" replyHbLostStillSelf sampleLeader).events ≠ [] := by
  decide

/-- C4 (amended): over any run starting with a follower tick that wins the
election and continuing with applying heartbeats, exactly one leadership-change
event is published, on acquisition; and a tick that leaves `leaderFlag` and the
known leader unchanged publishes no event, except for a leader tick whose
heartbeat did not succeed and which then either re-observed itself as the live
stored leader or re-won the election, which republishes one redundant leader
event. -/
theorem c4_events_change_triggered (h : String) (r : StoreReply) (rs : List StoreReply)
    (le : LeaderElectionStateMachine) :
    (isLeader le.leaderFlag = false → ¬ le.releaseSignal = 1 → ¬ le.releaseTickLimit > 0 →
      r.cldErr = false → r.cldDead = true → r.gvErr = false → r.elErr = false →
      r.elApplied = true →
      (∀ r' ∈ rs, r'.hbErr = false ∧ r'.hbApplied = true) →
      (runTicks h (r :: rs) le).2 =
        [{ key := le.electKey, leader := true, leaderHost := h }]) ∧
    ((tick h r le).st.leaderFlag = le.leaderFlag → (tick h r le).st.leader = le.leader →
      (tick h r le).events ≠ [] →
      isLeader le.leaderFlag = true ∧ le.leader = h ∧
        ¬ (r.hbErr = false ∧ r.hbApplied = true) ∧ ¬ le.releaseSignal = 1 ∧
        r.cldErr = false ∧
        ((r.cldDead = false ∧ r.cldLeader = h) ∨
          (r.cldDead = true ∧ r.gvErr = false ∧ r.elErr = false ∧ r.elApplied = true))) := by
  constructor
  · intro hF hSig hLim hErr hDead hGv hEl hApp hHb
    have ht := follower_wins_election_tick h r le hLim hF hSig hErr hDead hGv hEl hApp
    have htail := leader_steady_run_no_events h rs
      { le with version := r.gvVersion + 1, leaderFlag := 1, leader := h }
      rfl hSig hLim hHb
    simp only [runTicks, ht]
    simpa using htail
  · intro hFlagEq hLeaderEq hEvents
    by_cases hLim : le.releaseTickLimit > 0
    · rw [tick_cooldown h r le hLim] at hEvents
      exact absurd rfl hEvents
    by_cases hL : isLeader le.leaderFlag = true
    · by_cases hSig : le.releaseSignal = 1
      · rw [tick_leader_release h r le hLim hL hSig] at hFlagEq
        simp only at hFlagEq
        rw [← hFlagEq] at hL
        exact absurd hL (by decide)
      · by_cases hHb : r.hbErr = false ∧ r.hbApplied = true
        · rw [tick_leader_hb_ok h r le hLim hL hSig hHb.1 hHb.2] at hEvents
          exact absurd rfl hEvents
        · have ht := tick_leader_hb_fail h r le hLim hL hSig hHb
          rw [ht] at hFlagEq hLeaderEq hEvents
          cases hErr : r.cldErr with
          | true =>
            rw [tfdc_err h r _ _ hErr] at hEvents
            exact absurd rfl hEvents
          | false =>
            cases hDead : r.cldDead with
            | false =>
              by_cases hSelf : r.cldLeader = h
              · rw [tfdc_alive_self h r _ _ hErr hDead hSelf] at hLeaderEq
                simp only at hLeaderEq
                exact ⟨hL, hLeaderEq.symm, hHb, hSig, rfl, Or.inl ⟨rfl, hSelf⟩⟩
              · by_cases hNe : ({ le with version := le.version + 1 } :
                    LeaderElectionStateMachine).leader = r.cldLeader
                · rw [tfdc_alive_same h r _ _ hErr hDead hSelf hNe] at hEvents
                  exact absurd rfl hEvents
                · rw [tfdc_alive_changed h r _ _ hErr hDead hSelf hNe] at hLeaderEq
                  simp only at hLeaderEq
                  exact absurd hLeaderEq.symm hNe
            | true =>
              cases hGv : r.gvErr with
              | true =>
                rw [tfdc_dead_gverr h r _ _ hErr hDead hGv] at hEvents
                exact absurd rfl hEvents
              | false =>
                cases hEl : r.elErr with
                | true =>
                  rw [tfdc_dead_elerr h r _ _ hErr hDead hGv hEl] at hEvents
                  exact absurd rfl hEvents
                | false =>
                  cases hApp : r.elApplied with
                  | false =>
                    rw [tfdc_dead_lost h r _ _ hErr hDead hGv hEl hApp] at hEvents
                    exact absurd rfl hEvents
                  | true =>
                    rw [tfdc_dead_won h r _ _ hErr hDead hGv hEl hApp] at hLeaderEq
                    simp only at hLeaderEq
                    exact ⟨hL, hLeaderEq.symm, hHb, hSig, rfl,
                      Or.inr ⟨rfl, rfl, rfl, rfl⟩⟩
    · have hF : isLeader le.leaderFlag = false := by simpa using hL
      rw [tick_follower h r le hLim hF] at hFlagEq hLeaderEq hEvents
      have hp := checkAndClearReleaseSignal_preserves le
      cases hErr : r.cldErr with
      | true =>
        rw [tfdc_err h r _ _ hErr] at hEvents
        exact absurd rfl hEvents
      | false =>
        cases hDead : r.cldDead with
        | false =>
          by_cases hSelf : r.cldLeader = h
          · rw [tfdc_alive_self h r _ _ hErr hDead hSelf] at hFlagEq
            simp only at hFlagEq
            rw [← hFlagEq] at hF
            exact absurd hF (by decide)
          · by_cases hNe : (checkAndClearReleaseSignal le).2.leader = r.cldLeader
            · rw [tfdc_alive_same h r _ _ hErr hDead hSelf hNe] at hEvents
              exact absurd rfl hEvents
            · rw [tfdc_alive_changed h r _ _ hErr hDead hSelf hNe] at hLeaderEq
              simp only at hLeaderEq
              rw [hp.2.1] at hNe
              exact absurd hLeaderEq.symm hNe
        | true =>
          cases hGv : r.gvErr with
          | true =>
            rw [tfdc_dead_gverr h r _ _ hErr hDead hGv] at hEvents
            exact absurd rfl hEvents
          | false =>
            cases hEl : r.elErr with
            | true =>
              rw [tfdc_dead_elerr h r _ _ hErr hDead hGv hEl] at hEvents
              exact absurd rfl hEvents
            | false =>
              cases hApp : r.elApplied with
              | false =>
                rw [tfdc_dead_lost h r _ _ hErr hDead hGv hEl hApp] at hEvents
                exact absurd rfl hEvents
              | true =>
                rw [tfdc_dead_won h r _ _ hErr hDead hGv hEl hApp] at hFlagEq
                simp only at hFlagEq
                rw [← hFlagEq] at hF
                exact absurd hF (by decide)

/-- Witness for C4 (amended): a concrete 10-tick run (acquisition followed by
nine applying heartbeats) emits exactly the acquisition event, and the
redundant-republish characterization applies to a concrete reaffirming tick. -/
theorem c4_events_change_triggered_witness :
    (runTicks "A" (replyElectionWon :: List.replicate 9 replyAllOk) sampleFollower).2 =
      [{ key := sampleFollower.electKey, leader := true, leaderHost := "A" }] ∧
    (isLeader sampleLeader.leaderFlag = true ∧ sampleLeader.leader = "A" ∧
      ¬ (replyHbLostStillSelf.hbErr = false ∧ replyHbLostStillSelf.hbApplied = true) ∧
      ¬ sampleLeader.releaseSignal = 1 ∧ replyHbLostStillSelf.cldErr = false ∧
      ((replyHbLostStillSelf.cldDead = false ∧ replyHbLostStillSelf.cldLeader = "A") ∨
        (replyHbLostStillSelf.cldDead = true ∧ replyHbLostStillSelf.gvErr = false ∧
          replyHbLostStillSelf.elErr = false ∧ replyHbLostStillSelf.elApplied = true))) :=
  ⟨(c4_events_change_triggered "A" replyElectionWon (List.replicate 9 replyAllOk)
      sampleFollower).1 (by decide) (by decide) (by decide) (by decide) (by decide)
      (by decide) (by decide) (by decide) (by decide),
   (c4_events_change_triggered "A" replyHbLostStillSelf [] sampleLeader).2
      (by decide) (by decide) (by decide)⟩

/-! ## C8 -/

/-- Setting the release signal through the registry only rewrites the signal of
the machine registered under the key. -/
theorem lookupLe_setSignalInMap (m : LeMap) (key : String) :
    lookupLe (setSignalInMap m key) key = (lookupLe m key).map setReleaseSignal := by
  induction m with
  | nil => simp [lookupLe, setSignalInMap]
  | cons p rest ih =>
    obtain ⟨k, le⟩ := p
    by_cases h : k = key
    · simp [lookupLe, setSignalInMap, h]
    · simp [lookupLe, setSignalInMap, h, ih]

/-- C8: for an untracked key, `IsLeader` answers false (it takes no store
argument, so it cannot consult the store) and `ReleaseLeaderElection` returns
the distinct not-started error; for a tracked key, `IsLeader` returns exactly
the machine's local atomic flag and `ReleaseLeaderElection` returns nil after
setting that machine's release signal. -/
theorem c8_local_queries (m : LeMap) (key : String) :
    (lookupLe m key = none →
      adminIsLeader m key = false ∧
      adminReleaseLeaderElection m key =
        Except.error ("LeaderElection(" ++ key ++ ") not started")) ∧
    (∀ le, lookupLe m key = some le →
      adminIsLeader m key = isLeader le.leaderFlag ∧
      adminReleaseLeaderElection m key = Except.ok (setSignalInMap m key) ∧
      lookupLe (setSignalInMap m key) key = some (setReleaseSignal le)) := by
  constructor
  · intro hn
    simp [adminIsLeader, adminReleaseLeaderElection, hn]
  · intro le hle
    simp [adminIsLeader, adminReleaseLeaderElection, hle, lookupLe_setSignalInMap]

/-- Witness for C8: a concrete registry holding one leader machine under "k";
queries on the untracked key "j" and the tracked key "k". -/
theorem c8_local_queries_witness :
    (adminIsLeader [("k", sampleLeader)] "j" = false ∧
      adminReleaseLeaderElection [("k", sampleLeader)] "j" =
        Except.error ("LeaderElection(" ++ "j" ++ ") not started")) ∧
    (adminIsLeader [("k", sampleLeader)] "k" = isLeader sampleLeader.leaderFlag ∧
      adminReleaseLeaderElection [("k", sampleLeader)] "k" =
        Except.ok (setSignalInMap [("k", sampleLeader)] "k") ∧
      lookupLe (setSignalInMap [("k", sampleLeader)] "k") "k" =
        some (setReleaseSignal sampleLeader)) :=
  ⟨(c8_local_queries [("k", sampleLeader)] "j").1 (by decide),
   (c8_local_queries [("k", sampleLeader)] "k").2 sampleLeader (by decide)⟩

/-! ## Basic facts used by several claims -/

/-- Truncation to int32 is the identity on values within int32 range. -/
theorem toInt32_eq_self (x : Int) (h1 : -2147483648 ≤ x) (h2 : x < 2147483648) :
    toInt32 x = x := by
  simp only [toInt32]
  split <;> omega

/-! ## C1 -/

/-- C1: for every stored row, expected version and new version,
`CompareAndSwapVersion` updates the stored leader and version exactly when the
stored version equals the expected one, and on a version mismatch it leaves the
row unchanged and returns applied = false with a nil error. -/
theorem c1_cas_applies_iff_version_matches (row : LeaderElectionRow) (curV newV : Int)
    (leader : String) (now : Int) :
    (row.version = curV →
      compareAndSwapVersion row.electKey curV newV leader now (some row) =
        (some { row with leader := leader, version := newV, mtime := now }, true, none)) ∧
    (row.version ≠ curV →
      compareAndSwapVersion row.electKey curV newV leader now (some row) =
        (some row, false, none)) := by
  constructor
  · intro h
    simp [compareAndSwapVersion, h]
  · intro h
    simp [compareAndSwapVersion, h]

/-- Witness for C1 at a concrete row: a matching CAS applies, a mismatched CAS
reports applied = false with no error and leaves the row as it was. -/
theorem c1_cas_applies_iff_version_matches_witness :
    compareAndSwapVersion "k" 4 5 "A" 100
        (some { electKey := "k", leader := "B", version := 4, ctime := 1, mtime := 50 }) =
      (some { electKey := "k", leader := "A", version := 5, ctime := 1, mtime := 100 }, true, none) ∧
    compareAndSwapVersion "k" 7 8 "A" 100
        (some { electKey := "k", leader := "B", version := 4, ctime := 1, mtime := 50 }) =
      (some { electKey := "k", leader := "B", version := 4, ctime := 1, mtime := 50 }, false, none) :=
  ⟨(c1_cas_applies_iff_version_matches
      { electKey := "k", leader := "B", version := 4, ctime := 1, mtime := 50 } 4 5 "A" 100).1 rfl,
   (c1_cas_applies_iff_version_matches
      { electKey := "k", leader := "B", version := 4, ctime := 1, mtime := 50 } 7 8 "A" 100).2
      (by decide)⟩

/-! ## C2 -/

/-- C2: every applied `CompareAndSwapVersion` rewrites the row's `mtime` to the
current time, so right after an applied CAS the row's staleness measured from
now is zero. The `mtime` refresh itself is modelled from the spec, since it is
performed by the `leader_election` schema, which is not under src/. -/
theorem c2_cas_success_refreshes_mtime (db : Db) (key : String) (curV newV : Int)
    (leader : String) (now : Int) (row' : LeaderElectionRow)
    (happ : (compareAndSwapVersion key curV newV leader now db).2.1 = true)
    (hrow : (compareAndSwapVersion key curV newV leader now db).1 = some row') :
    row'.mtime = now ∧ now - row'.mtime = 0 := by
  match db with
  | none => simp [compareAndSwapVersion] at happ
  | some row =>
    by_cases h : row.electKey = key ∧ row.version = curV
    · simp [compareAndSwapVersion, h] at hrow
      subst hrow
      simp
    · simp [compareAndSwapVersion, h] at happ

/-- Witness for C2: a concrete applied CAS leaves `mtime = now`. -/
theorem c2_cas_success_refreshes_mtime_witness :
    let db : Db := some { electKey := "k", leader := "B", version := 4, ctime := 1, mtime := 50 }
    (compareAndSwapVersion "k" 4 5 "A" 100 db).1 =
        some { electKey := "k", leader := "A", version := 5, ctime := 1, mtime := 100 } ∧
    (100 : Int) - 100 = 0 :=
  ⟨by decide,
   ((c2_cas_success_refreshes_mtime
      (some { electKey := "k", leader := "B", version := 4, ctime := 1, mtime := 50 })
      "k" 4 5 "A" 100
      { electKey := "k", leader := "A", version := 5, ctime := 1, mtime := 100 }
      (by decide) (by decide)).2)⟩

/-! ## C6 -/

/-- C6: duplicate create is NOT error-free in this port. The first create of a
key succeeds with a nil error; a second create while the row exists leaves the
row unchanged (the aborted transaction is rolled back) but returns the lib/pq
in-failed-transaction error, contradicting the documented idempotent-create
contract. -/
theorem c6_duplicate_create_returns_error :
    (createLeaderElection "k" 40 none).2 = none ∧
    (createLeaderElection "k" 50 (createLeaderElection "k" 40 none).1).1 =
      (createLeaderElection "k" 40 none).1 ∧
    (createLeaderElection "k" 50 (createLeaderElection "k" 40 none).1).2 =
      some StoreErr.inFailedTransaction := by
  decide

/-! ## C9 -/

/-- C9 counterexample: with `mtime = 0` and `now = 2^32` the true difference
4294967296 strictly exceeds the lease 10, yet `CheckMtimeExpired` reports not
expired, because the source's `int32` narrowing wraps the difference to 0. -/
theorem c9_counterexample :
    (checkMtimeExpired "k" 10 4294967296
        (some { electKey := "k", leader := "A", version := 1, ctime := 0, mtime := 0 })).2.1
      = false ∧
    (4294967296 : Int) - 0 > 10 := by
  decide

/-- C9 (amended): `CheckMtimeExpired` reports expired exactly when the int32
truncation of now − mtime strictly exceeds the lease duration, which agrees
with the plain rule whenever the difference fits in int32 range; the `Valid`
flag of every record returned by `ListLeaderElections` is the untruncated rule
now − mtime ≤ LeaseTime, hence within int32 range `Valid` is the negation of
the expiry rule. -/
theorem c9_expiry_and_valid_rules (row : LeaderElectionRow) (leaseT now : Int) :
    ((checkMtimeExpired row.electKey leaseT now (some row)).2.1 = true ↔
      toInt32 (now - row.mtime) > leaseT) ∧
    (-2147483648 ≤ now - row.mtime → now - row.mtime < 2147483648 →
      ((checkMtimeExpired row.electKey leaseT now (some row)).2.1 = true ↔
        now - row.mtime > leaseT)) ∧
    (∀ v ∈ listLeaderElections now (some row), v.valid = true ↔ now - row.mtime ≤ LeaseTime) ∧
    (-2147483648 ≤ now - row.mtime → now - row.mtime < 2147483648 →
      (checkMtimeExpired row.electKey LeaseTime now (some row)).2.1 =
        !(checkLeaderValid now row.mtime)) := by
  refine ⟨?_, ?_, ?_, ?_⟩
  · simp [checkMtimeExpired]
  · intro h1 h2
    simp [checkMtimeExpired, toInt32_eq_self (now - row.mtime) h1 h2]
  · intro v hv
    simp [listLeaderElections, fetchLeaderElectionRow, Option.toList] at hv
    subst hv
    simp [checkLeaderValid]
  · intro h1 h2
    have hd : ∀ a b : Int, decide (b < a) = !decide (a ≤ b) := by
      intro a b
      by_cases h : a ≤ b
      · simp [h, not_lt.mpr h]
      · simp [h, not_le.mp h]
    simp [checkMtimeExpired, checkLeaderValid, toInt32_eq_self (now - row.mtime) h1 h2,
      LeaseTime, hd]

/-- Witness for C9 (amended) at a concrete fresh row and a concrete stale row. -/
theorem c9_expiry_and_valid_rules_witness :
    ((checkMtimeExpired "k" 10 58
        (some { electKey := "k", leader := "A", version := 1, ctime := 0, mtime := 50 })).2.1
        = true ↔ (58 : Int) - 50 > 10) ∧
    ((checkMtimeExpired "k" LeaseTime 80
        (some { electKey := "k", leader := "A", version := 1, ctime := 0, mtime := 50 })).2.1 =
      !(checkLeaderValid 80 50)) :=
  ⟨(c9_expiry_and_valid_rules
      { electKey := "k", leader := "A", version := 1, ctime := 0, mtime := 50 } 10 58).2.1
      (by decide) (by decide),
   (c9_expiry_and_valid_rules
      { electKey := "k", leader := "A", version := 1, ctime := 0, mtime := 50 } 10 80).2.2.2
      (by decide) (by decide)⟩

end Polaris
